import Mathlib

/-!
# Verification of the jgscm path-mapping / virtual-directory engine

A shallow embedding of `jgscm/__init__.py` (the
`JupyterGoogleStorageContentManager` and `GoogleStorageCheckpoints`
classes) over an explicit Google-Cloud-Storage state, together with
theorems settling the frozen claims about the natural-language
specification.

Conventions of the embedding:
* Python exceptions become an error type `PyErr`; a raised exception is an
  `Except.error`.  State mutations performed before an exception is raised
  persist (as in Python), so stateful operations live in the monad
  `M α := GCSState → GCSState × Except PyErr α`.
* Machine strings are Lean `String`s worked on through their `List Char`
  representation; byte strings are `List Nat` (each entry < 256).
* The storage backend (`gcloud.storage`), the notebook codec (`nbformat`),
  the visibility filter `should_list` and uuid generation are external
  collaborators of the repository; they are modelled from the spec's
  description of their interfaces (see the doc comments at each).
-/

set_option autoImplicit false

namespace JGSCM

/-- The Python exceptions that can cross the boundaries modelled here.
`http status msg` is `tornado.web.HTTPError`; `notFound`, `forbidden` and
`badRequest` are the `gcloud.exceptions` classes; the remainder are
builtin Python exception classes.  `recursionLimit` is the artificial
fuel-exhaustion marker used by the embedding for the (terminating)
recursive operations; it is never produced at the fuel bounds used. -/
inductive PyErr where
  | http (status : Nat) (msg : String)
  | notFound
  | forbidden
  | badRequest
  | valueError
  | typeError
  | keyError
  | nameError
  | attributeError
  | unicodeError
  | recursionLimit
  deriving DecidableEq, Repr

/-- A Python value in truth-value position.  `_fetch` mostly returns real
booleans, but one branch of the source returns a *bound method* (the
un-called `bucket.blob(...).exists`), which is always truthy in Python. -/
inductive PyTruth where
  | bool (b : Bool)
  | boundMethod
  deriving DecidableEq, Repr

/-- Python truthiness of the first component of a `_fetch` result. -/
def PyTruth.truthy : PyTruth → Bool
  | .bool b => b
  | .boundMethod => true

/-- A stored object (`gcloud.storage.Blob` together with its data):
identified by (bucket, key), carrying content bytes, a content type and a
last-modified stamp. -/
structure Blob where
  bucket : String
  name : String
  content : List Nat := []
  contentType : Option String := none
  updated : Nat := 0
  deriving DecidableEq, Repr

/-- The state of the storage backend plus the manager's process state.
`buckets` are the existing bucket names, `forbidden` the bucket names for
which the backend raises `Forbidden` on `get_bucket`, `bucketCache` the
manager's `_bucket_cache` keys, `uuids` the stream of values returned by
`uuid.uuid4()` (modelled as an oracle), `clock` drives `Blob.updated`
stamps, `hookInvocations` records each actual invocation of the post-save
hook and `loggedErrors` counts calls of `log.error`. -/
structure GCSState where
  buckets : List String := []
  forbidden : List String := []
  blobs : List Blob := []
  bucketCache : List String := []
  uuids : List String := []
  clock : Nat := 1
  hookInvocations : List String := []
  loggedErrors : Nat := 0
  deriving Repr

/-- Stateful computations: Python code threading the backend/manager
state, with exceptions.  State mutated before a raise persists. -/
def M (α : Type) : Type := GCSState → GCSState × Except PyErr α

/-- Return of `M`. -/
def mPure {α : Type} (a : α) : M α := fun s => (s, .ok a)

/-- Sequencing of `M`: an exception short-circuits, keeping the state
reached so far. -/
def mBind {α β : Type} (x : M α) (f : α → M β) : M β := fun s =>
  match x s with
  | (s', .ok a) => f a s'
  | (s', .error e) => (s', .error e)

instance : Monad M where
  pure := mPure
  bind := mBind

/-- Raise a Python exception. -/
def throwE {α : Type} (e : PyErr) : M α := fun s => (s, .error e)

/-- Read the current state. -/
def getS : M GCSState := fun s => (s, .ok s)

/-- Update the state. -/
def modifyS (f : GCSState → GCSState) : M Unit := fun s => (f s, .ok ())

/-- A Python `try`/`except` catching every exception with `h`. -/
def catchE {α : Type} (x : M α) (h : PyErr → M α) : M α := fun s =>
  match x s with
  | (s', .error e) => h e s'
  | r => r

/-- Lift a pure fallible computation into `M`. -/
def liftE {α : Type} (e : Except PyErr α) : M α := fun s => (s, e)

/-- Python `self.log.error(...)`: count the logged error. -/
def logErrorM : M Unit :=
  modifyS (fun s => { s with loggedErrors := s.loggedErrors + 1 })

/-! ## String helpers (over the `List Char` representation) -/

/-- Predicate `listIsPrefix p l` : `p` is a prefix of `l` (decided with `==`). -/
def listIsPrefix : List Char → List Char → Bool
  | [], _ => true
  | _ :: _, [] => false
  | a :: as, b :: bs => a == b && listIsPrefix as bs

/-- Python `s.startswith(t)`. -/
def strStartsWith (s t : String) : Bool := listIsPrefix t.data s.data

/-- Python `s.endswith(t)`. -/
def strEndsWith (s t : String) : Bool :=
  listIsPrefix t.data.reverse s.data.reverse

/-- Python `c in s` for a single character. -/
def strHas (s : String) (c : Char) : Bool := s.data.any (· == c)

/-- Python `s[n:]` (character index). -/
def strDrop (s : String) (n : Nat) : String := ⟨s.data.drop n⟩

/-- Python `s[:n]` (character index). -/
def strTake (s : String) (n : Nat) : String := ⟨s.data.take n⟩

/-- Python `s[:-n]` for `n ≤ len s`. -/
def strDropRight (s : String) (n : Nat) : String :=
  ⟨s.data.take (s.data.length - n)⟩

/-- Python `len(s)` (in characters). -/
def strLen (s : String) : Nat := s.data.length

/-- The last 36 characters, Python `s[-36:]` (the whole string when
shorter). -/
def strTakeRight (s : String) (n : Nat) : String :=
  ⟨s.data.drop (s.data.length - n)⟩

/-- Split a char list at the first occurrence of `sep`:
`some (before, after)` when present, `none` otherwise. -/
def splitOnce (sep : Char) : List Char → Option (List Char × List Char)
  | [] => none
  | c :: cs =>
    if c = sep then some ([], cs)
    else (splitOnce sep cs).map (fun p => (c :: p.1, p.2))

/-- The character index one past the last occurrence of `sep`
(Python `s.rfind(sep) + 1`, which is `0` when `sep` is absent). -/
def rfindSucc (sep : Char) (l : List Char) : Nat :=
  match l with
  | [] => 0
  | c :: cs =>
    let r := rfindSucc sep cs
    if r = 0 then (if c = sep then 1 else 0) else r + 1

/-- The index of the last occurrence of `c` in `l`, when present. -/
def rlastIdx (c : Char) (l : List Char) : Option Nat :=
  match l with
  | [] => none
  | a :: as =>
    match rlastIdx c as with
    | some i => some (i + 1)
    | none => if a = c then some 0 else none

/-- Strip one leading `/` (Python `path[1:]` under
`path.startswith("/")`, as every public entry point does). -/
def stripSlash (p : String) : String :=
  if strStartsWith p "/" then ⟨p.data.drop 1⟩ else p

/-! ## The Path Resolver -/

/-- Source `JupyterGoogleStorageContentManager._parse_path`:
`path.split("/", 1)` unpacked into `(bucket, name)`; the `ValueError` of
unpacking a one-element list (no `/` present) is caught and gives
`(path, "")`.  Total: it never raises. -/
def parsePath (path : String) : String × String :=
  match splitOnce '/' path.data with
  | some (b, n) => (⟨b⟩, ⟨n⟩)
  | none => (path, "")

/-- A minimal model of `urllib` percent-quoting as used by the backend's
`Blob.path` property: the only character appearing in our keys that is
quoted is `/`; it becomes `%2F`.  `url_unescape` is its inverse. -/
def pyQuote (s : String) : String :=
  ⟨s.data.foldr (fun c acc => if c = '/' then '%' :: '2' :: 'F' :: acc else c :: acc) []⟩

/-- Backend `gcloud.storage.Blob.path`: the API path `/b/<bucket>/o/<quoted name>`. -/
def blobApiPath (b : Blob) : String :=
  "/b/" ++ b.bucket ++ "/o/" ++ pyQuote b.name

/-- Source `JupyterGoogleStorageContentManager._get_blob_path`:
`url_unescape(blob.path)` with the `/b/` prefix dropped and the first
`/o/` replaced by `/`.  Since the quoted name contains no `/`, the first
`/o/` is the separator, and unquoting restores the raw name, so the
result is `bucket ++ "/" ++ name`. -/
def getBlobPath (b : Blob) : String := b.bucket ++ "/" ++ b.name

/-- Source `JupyterGoogleStorageContentManager._get_blob_name`:
`url_unescape(blob.path).rsplit("/", 1)[-1]` — the segment of the raw
name after its last `/` (the unescaped path always contains a `/`). -/
def getBlobName (b : Blob) : String :=
  ⟨((b.name.data.reverse.takeWhile (fun c => ¬ c = '/')).reverse)⟩

/-- Source `JupyterGoogleStorageContentManager._get_dir_name`: strip one
trailing `/`, then take the segment after the last `/`. -/
def getDirName (path : String) : String :=
  let p := if strEndsWith path "/" then strDropRight path 1 else path
  ⟨((p.data.reverse.takeWhile (fun c => ¬ c = '/')).reverse)⟩

/-- Python `os.path.splitext`: split off the extension at the last `.`
of the last path segment, provided some non-`.` character precedes it in
that segment (so `".bashrc"` has no extension). -/
def splitext (s : String) : String × String :=
  match rlastIdx '.' s.data with
  | none => (s, "")
  | some d =>
    let afterSep : Bool :=
      match rlastIdx '/' s.data with
      | none => true
      | some sep => decide (sep < d)
    let fnameStart := match rlastIdx '/' s.data with
      | none => 0
      | some sep => sep + 1
    let hasStem := ((s.data.drop fnameStart).take (d - fnameStart)).any (fun c => ¬ c = '.')
    if afterSep ∧ hasStem then (⟨s.data.take d⟩, ⟨s.data.drop d⟩) else (s, "")

/-! ## Byte-level codecs (`str.encode`, `str.decode`, `base64`)

The UTF-8 and base64 codecs below are the Python library routines the
source calls (`bytes.decode("utf8")`, `str.encode("utf8")`,
`str.encode("ascii")`, `base64.encodebytes`, `base64.decodebytes`),
implemented over `List Nat` byte strings. -/

/-- UTF-8 encoding of one scalar value. -/
def utf8EncodeChar (c : Char) : List Nat :=
  let n := c.toNat
  if n < 0x80 then [n]
  else if n < 0x800 then [0xC0 + n / 64, 0x80 + n % 64]
  else if n < 0x10000 then [0xE0 + n / 4096, 0x80 + (n / 64) % 64, 0x80 + n % 64]
  else [0xF0 + n / 262144, 0x80 + (n / 4096) % 64, 0x80 + (n / 64) % 64, 0x80 + n % 64]

/-- Python `s.encode("utf8")`. -/
def utf8Encode (s : String) : List Nat :=
  s.data.foldr (fun c acc => utf8EncodeChar c ++ acc) []

/-- A byte is a UTF-8 continuation byte. -/
def isCont (b : Nat) : Bool := 0x80 ≤ b && b < 0xC0

/-- Python `bytes.decode("utf8")` (strict): `none` on malformed input
(stray continuation bytes, truncated sequences, overlong encodings,
surrogates, out-of-range scalars). -/
def utf8DecodeAux : List Nat → Option (List Char)
  | [] => some []
  | b :: rest =>
    if b < 0x80 then
      (utf8DecodeAux rest).map (fun cs => Char.ofNat b :: cs)
    else if b < 0xC2 then none
    else if b < 0xE0 then
      match rest with
      | b2 :: rest2 =>
        if isCont b2 then
          let n := (b - 0xC0) * 64 + (b2 - 0x80)
          (utf8DecodeAux rest2).map (fun cs => Char.ofNat n :: cs)
        else none
      | [] => none
    else if b < 0xF0 then
      match rest with
      | b2 :: b3 :: rest3 =>
        if isCont b2 && isCont b3 then
          let n := (b - 0xE0) * 4096 + (b2 - 0x80) * 64 + (b3 - 0x80)
          if n < 0x800 ∨ (0xD800 ≤ n ∧ n < 0xE000) then none
          else (utf8DecodeAux rest3).map (fun cs => Char.ofNat n :: cs)
        else none
      | _ => none
    else if b < 0xF5 then
      match rest with
      | b2 :: b3 :: b4 :: rest4 =>
        if isCont b2 && isCont b3 && isCont b4 then
          let n := (b - 0xF0) * 262144 + (b2 - 0x80) * 4096 +
            (b3 - 0x80) * 64 + (b4 - 0x80)
          if n < 0x10000 ∨ 0x110000 ≤ n then none
          else (utf8DecodeAux rest4).map (fun cs => Char.ofNat n :: cs)
        else none
      | _ => none
    else none

/-- Python `bytes.decode("utf8")`. -/
def utf8Decode (bs : List Nat) : Option String :=
  (utf8DecodeAux bs).map (fun cs => ⟨cs⟩)

/-- Python `s.encode("ascii")`: fails (`UnicodeEncodeError`) on any
character above U+007F. -/
def asciiEncode (s : String) : Except PyErr (List Nat) :=
  if s.data.all (fun c => c.toNat < 128) then .ok (s.data.map Char.toNat)
  else .error .unicodeError

/-- The base64 alphabet, by 6-bit value. -/
def b64Char (n : Nat) : Char :=
  if n < 26 then Char.ofNat (65 + n)
  else if n < 52 then Char.ofNat (97 + (n - 26))
  else if n < 62 then Char.ofNat (48 + (n - 52))
  else if n = 62 then '+'
  else '/'

/-- The 6-bit value of a base64 alphabet character, when it is one. -/
def b64Index (c : Char) : Option Nat :=
  if 'A' ≤ c ∧ c ≤ 'Z' then some (c.toNat - 65)
  else if 'a' ≤ c ∧ c ≤ 'z' then some (c.toNat - 97 + 26)
  else if '0' ≤ c ∧ c ≤ '9' then some (c.toNat - 48 + 52)
  else if c = '+' then some 62
  else if c = '/' then some 63
  else none

/-- Standard base64 of a byte group (`binascii.b2a_base64` without the
trailing newline): 3 bytes to 4 characters, `=`-padded. -/
def b64EncodeGroups : List Nat → List Char
  | [] => []
  | [a] => [b64Char (a / 4), b64Char ((a % 4) * 16), '=', '=']
  | [a, b] => [b64Char (a / 4), b64Char ((a % 4) * 16 + b / 16),
               b64Char ((b % 16) * 4), '=']
  | a :: b :: c :: rest =>
      b64Char (a / 4) :: b64Char ((a % 4) * 16 + b / 16) ::
      b64Char ((b % 16) * 4 + c / 64) :: b64Char (c % 64) ::
      b64EncodeGroups rest

/-- Split off the first `n` elements (auxiliary for `chunks45`). -/
def splitAtN : Nat → List Nat → List Nat × List Nat
  | 0, l => ([], l)
  | _ + 1, [] => ([], [])
  | n + 1, b :: bs =>
    let p := splitAtN n bs
    (b :: p.1, p.2)

/-- Chunk a byte string into the 45-byte pieces `base64.encodebytes`
feeds to `binascii.b2a_base64` (fuel-driven by the length: each chunk
consumes at least one byte). -/
def chunks45F : Nat → List Nat → List (List Nat)
  | _, [] => []
  | 0, _ :: _ => []
  | fuel + 1, b :: bs =>
    let p := splitAtN 44 bs
    (b :: p.1) :: chunks45F fuel p.2

/-- The 45-byte chunks of a byte string. -/
def chunks45 (l : List Nat) : List (List Nat) := chunks45F l.length l

/-- Python `base64.encodebytes`: encode 45-byte chunks, each line
newline-terminated; the empty byte string encodes to the empty string. -/
def encodebytes (bs : List Nat) : String :=
  ⟨(chunks45 bs).foldr (fun chunk acc => b64EncodeGroups chunk ++ '\n' :: acc) []⟩

/-- Decode base64 quads (the valid-character stream of
`binascii.a2b_base64`): `=` may appear only as padding of the final quad;
a leftover partial quad is the `Incorrect padding` error (modelled as
`valueError`, an `Exception` like `binascii.Error`). -/
def b64DecodeQuads : List Char → Except PyErr (List Nat)
  | [] => .ok []
  | a :: b :: c :: d :: rest =>
    match b64Index a, b64Index b with
    | some ia, some ib =>
      if c = '=' then
        if d = '=' ∧ rest = [] then .ok [ia * 4 + ib / 16] else .error .valueError
      else
        match b64Index c with
        | some ic =>
          if d = '=' then
            if rest = [] then .ok [ia * 4 + ib / 16, (ib % 16) * 16 + ic / 4]
            else .error .valueError
          else
            match b64Index d with
            | some id' =>
              (b64DecodeQuads rest).map
                (fun bs => (ia * 4 + ib / 16) :: ((ib % 16) * 16 + ic / 4) ::
                  ((ic % 4) * 64 + id') :: bs)
            | none => .error .valueError
        | none => .error .valueError
    | _, _ => .error .valueError
  | _ => .error .valueError

/-- Python `base64.decodebytes`: characters outside the alphabet and the
padding sign (such as newlines) are discarded, then the quads are
decoded. -/
def decodebytes (bs : List Nat) : Except PyErr (List Nat) :=
  let cs := (bs.map Char.ofNat).filter (fun c => (b64Index c).isSome || c = '=')
  b64DecodeQuads cs

/-! ## The storage backend (external collaborator)

Modelled from the spec's interface list (§6): `getContainer`,
`createContainer`, object `exists`/`get`/`upload`/`delete`,
`list(prefix, delimiter, maxResults)`, `rename`, `copy`.  The delimiter
is always `/` in the source, so it is fixed here. -/

/-- Whether a blob record matches a (bucket, key) address. -/
def blobAt (bucket key : String) (b : Blob) : Bool :=
  b.bucket == bucket && b.name == key

/-- Backend object `exists()` probe. -/
def blobExistsB (s : GCSState) (bucket key : String) : Bool :=
  s.blobs.any (blobAt bucket key)

/-- Backend `bucket.get_blob(key)`: the stored object or `None`. -/
def getBlobB (s : GCSState) (bucket key : String) : Option Blob :=
  s.blobs.find? (blobAt bucket key)

/-- Backend upload (`blob.upload_from_string`): replaces any object at
the same address, stamps `updated` from the clock. -/
def uploadB (bucket key : String) (content : List Nat)
    (contentType : Option String) : M Blob := fun s =>
  let b : Blob := { bucket := bucket, name := key, content := content,
                    contentType := contentType, updated := s.clock }
  ({ s with blobs := b :: s.blobs.filter (fun x => !(blobAt bucket key x)),
            clock := s.clock + 1 }, .ok b)

/-- Backend `bucket.delete_blob(blob)`; the source sometimes passes
`None` (the stale `old_blob`), which fails like the Python call would
(`TypeError`); a missing object raises `NotFound`. -/
def deleteBlobB (bucket : String) (b? : Option Blob) : M Unit := fun s =>
  match b? with
  | none => (s, .error .typeError)
  | some b =>
    if blobExistsB s bucket b.name then
      ({ s with blobs := s.blobs.filter (fun x => !(blobAt bucket b.name x)) }, .ok ())
    else (s, .error .notFound)

/-- Backend `bucket.copy_blob(blob, dest_bucket, new_name)`. -/
def copyBlobB (srcBucket : String) (b : Blob) (destBucket newName : String) :
    M Blob := fun s =>
  if blobExistsB s srcBucket b.name then
    uploadB destBucket newName b.content b.contentType s
  else (s, .error .notFound)

/-- Backend `bucket.rename_blob(blob, new_name)` (copy then delete, in
place). -/
def renameBlobB (bucket : String) (b : Blob) (newName : String) : M Blob := fun s =>
  if blobExistsB s bucket b.name then
    let s' := { s with blobs := s.blobs.filter (fun x => !(blobAt bucket b.name x)) }
    uploadB bucket newName b.content b.contentType s'
  else (s, .error .notFound)

/-- Backend `client.create_bucket(name)`. -/
def createBucketB (name : String) : M Unit := fun s =>
  ({ s with buckets := name :: s.buckets }, .ok ())

/-- The key of a blob after the listing prefix; meaningful when the
prefix matches. -/
def keyTail (prefixStr : String) (key : String) : List Char :=
  key.data.drop prefixStr.data.length

/-- The characters of `t` up to and including its first `/`. -/
def takeThroughSlash : List Char → List Char
  | [] => []
  | c :: cs => if c = '/' then ['/'] else c :: takeThroughSlash cs

/-- The sub-prefix entry a matching blob contributes under a delimiter
listing, when its key continues past a `/`. -/
def prefixEntry (prefixStr : String) (b : Blob) : Option String :=
  let t := keyTail prefixStr b.name
  if t.any (· == '/') then some ⟨prefixStr.data ++ takeThroughSlash t⟩ else none

/-- Backend `bucket.list_blobs(prefix=..., delimiter="/",
max_results=...)`: objects whose key extends the prefix without a
further `/` are returned directly; the others are grouped one level deep
into sub-prefixes (ending in `/`, first occurrence kept).  `maxResults`
bounds the combined number of returned items.  Listing order is the
state's record order (the claims settled here are order-insensitive). -/
def listObjects (s : GCSState) (bucket prefixStr : String) (maxResults : Nat) :
    List Blob × List String :=
  let ms := s.blobs.filter
    (fun b => b.bucket == bucket && listIsPrefix prefixStr.data b.name.data)
  let fs := ms.filter (fun b => !((keyTail prefixStr b.name).any (· == '/')))
  let ps := (ms.filterMap (prefixEntry prefixStr)).eraseDups
  let fs' := fs.take maxResults
  (fs', ps.take (maxResults - fs'.length))

/-- The listing call inside `M`: raises `NotFound` when the bucket does
not exist in the backend (a cached handle can be stale). -/
def listBlobsM (bucket prefixStr : String) (maxResults : Nat) :
    M (List Blob × List String) := fun s =>
  if bucket ∈ s.buckets then (s, .ok (listObjects s bucket prefixStr maxResults))
  else (s, .error .notFound)

/-! ## The manager's configuration -/

/-- A post-save hook: called with (os_path, model-path); may raise.  The
model argument is represented by the saved model's path, the only part a
claim observes. -/
def HookFn : Type := String → String → Except PyErr Unit

/-- The configurable traits of `JupyterGoogleStorageContentManager` and
`GoogleStorageCheckpoints` used by the embedded operations, with the
source's default values.  `shouldList` is the external visibility filter
`ContentsManager.should_list`. -/
structure Manager where
  maxListSize : Nat := 1024
  cacheBuckets : Bool := true
  checkpointDir : String := ".ipynb_checkpoints"
  checkpointBucket : String := ""
  shouldList : String → Bool
  postSaveHook : Option HookFn := none

/-! ## Bucket/Container Cache -/

/-- Source `JupyterGoogleStorageContentManager._get_bucket(name, throw)`.
Without caching: `client.get_bucket`, catching only `NotFound` (returned
as `None` unless `throw`).  With caching: a cache hit returns the cached
handle; on a miss the backend is consulted and `BadRequest`/`NotFound`
are caught (returned as `None` unless `throw`); only successful lookups
populate the cache.  `Forbidden` always propagates.  A bucket handle is
represented by its name. -/
def getBucketM (mgr : Manager) (name : String) (throw : Bool) :
    M (Option String) := fun s =>
  if !mgr.cacheBuckets then
    if name ∈ s.forbidden then (s, .error .forbidden)
    else if name ∈ s.buckets then (s, .ok (some name))
    else if throw then (s, .error .notFound) else (s, .ok none)
  else
    if name ∈ s.bucketCache then (s, .ok (some name))
    else if name ∈ s.forbidden then (s, .error .forbidden)
    else if name ∈ s.buckets then
      ({ s with bucketCache := name :: s.bucketCache }, .ok (some name))
    else if throw then (s, .error .notFound) else (s, .ok none)

/-- Python `del self._bucket_cache[name]` (raises `KeyError` when the
entry is absent). -/
def cacheDelM (name : String) : M Unit := fun s =>
  if name ∈ s.bucketCache then
    ({ s with bucketCache := s.bucketCache.filter (· ≠ name) }, .ok ())
  else (s, .error .keyError)

/-! ## Fetch / Listing Engine -/

/-- The second component of a `_fetch` result: `None`, a directory
listing pair, the root listing, or a blob handle. -/
inductive FetchPayload where
  | nul
  | listing (files : List Blob) (folders : List String)
  | rootListing (files : List Blob) (buckets : List String)
  | blob (b : Blob)
  deriving DecidableEq, Repr

/-- Source `JupyterGoogleStorageContentManager._fetch(path, content)`.

* `path == ""`: the root always exists; payload is the bucket listing.
* `Forbidden` from `_get_bucket` is swallowed: `(True, None)`.
* a missing bucket: `(False, None)`.
* directory-intent key (`""` or trailing `/`): optional marker-blob
  short-circuit, then a delimiter listing (`max_results` 1 when content
  is not requested); `NotFound` while listing evicts the cache entry and
  gives `(False, None)`.
* plain key, content not requested: the source returns the *un-called*
  bound method `bucket.blob(path).exists` (`PyTruth.boundMethod`).
* plain key, content requested: `get_blob`; `(found, blob-or-None)`. -/
def fetchM (mgr : Manager) (path : String) (content : Bool) :
    M (PyTruth × FetchPayload) :=
  if path = "" then do
    let s ← getS
    pure (.bool true, .rootListing [] s.buckets)
  else do
    let bucketName := (parsePath path).1
    let bucketPath := (parsePath path).2
    let r ← catchE (do
        let b? ← getBucketM mgr bucketName false
        pure (Sum.inr b?))
      (fun e => if e = .forbidden then pure (Sum.inl ()) else throwE e)
    match r with
    | Sum.inl () => pure (.bool true, .nul)
    | Sum.inr none => pure (.bool false, .nul)
    | Sum.inr (some bucket) =>
      if bucketPath = "" ∨ strEndsWith bucketPath "/" then do
        let s ← getS
        let isShort : Bool := bucketPath ≠ "" &&
          blobExistsB s bucket bucketPath && !content
        if isShort then pure (.bool true, .nul)
        else do
          let maxListSize := if content then mgr.maxListSize else 1
          let r ← catchE (do
              let fp ← listBlobsM bucket bucketPath maxListSize
              pure (some fp))
            (fun e =>
              if e = .notFound then do
                cacheDelM bucketName
                pure none
              else throwE e)
          match r with
          | none => pure (.bool false, .nul)
          | some (files, prefixes) =>
            let folders := prefixes.map (fun f => strDropRight f 1)
            pure (.bool (!files.isEmpty || !folders.isEmpty || bucketPath == ""),
                  if content then .listing files folders else .nul)
      else if !content then
        pure (.boundMethod, .nul)
      else do
        let s ← getS
        match getBlobB s bucket bucketPath with
        | some b => pure (.bool true, .blob b)
        | none => pure (.bool false, .nul)

/-- Source `JupyterGoogleStorageContentManager.is_hidden(path)`: hidden when the
bucket cannot be resolved (`Forbidden`) or does not exist.  (The
`ValueError` branch of the source is dead: `_parse_path` never raises.) -/
def isHiddenM (mgr : Manager) (path : String) : M Bool :=
  if path = "" then pure false
  else do
    let bucketName := (parsePath path).1
    catchE (do
        let b? ← getBucketM mgr bucketName false
        pure b?.isNone)
      (fun e => if e = .forbidden then pure true else throwE e)

/-- Source `JupyterGoogleStorageContentManager.file_exists(path)`: empty path,
empty object key and trailing-`/` keys are never files; otherwise the
backend existence probe decides. -/
def fileExistsM (mgr : Manager) (path0 : String) : M Bool :=
  if path0 = "" then pure false
  else do
    let path := stripSlash path0
    let bucketName := (parsePath path).1
    let bucketPath := (parsePath path).2
    let b? ← getBucketM mgr bucketName false
    match b? with
    | none => pure false
    | some bucket =>
      if bucketPath = "" then pure false
      else if strEndsWith bucketPath "/" then pure false
      else do
        let s ← getS
        pure (blobExistsB s bucket bucketPath)

/-- Source `JupyterGoogleStorageContentManager.dir_exists(path)`. -/
def dirExistsM (mgr : Manager) (path0 : String) : M Bool := do
  let path := stripSlash path0
  if path = "" then pure true
  else do
    let path := if strEndsWith path "/" then path else path ++ "/"
    let (t, _) ← fetchM mgr path false
    pure t.truthy

/-! ## Model Builders -/

/-- The content-less part of a contents model.  Directory models carry
empty-string timestamps in the source; they are `none` here. -/
structure ModelBase where
  type : String
  name : String
  path : String
  lastModified : Option Nat := none
  created : Option Nat := none
  mimetype : Option String := none
  format : Option String := none
  writable : Bool := true
  deriving DecidableEq, Repr

/-- A contents model.  In `_dir_model` every child is built with
`content=False`, so children carry no content of their own and are
recorded as `ModelBase`s. -/
structure ModelOut where
  base : ModelBase
  contentStr : Option String := none
  contentNb : Option String := none
  children : Option (List ModelBase) := none
  deriving DecidableEq, Repr

/-- Source `JupyterGoogleStorageContentManager._base_model(blob)` (the `type`
field is filled by the caller). -/
def baseModel (b : Blob) (type : String) : ModelBase :=
  { type := type, name := getBlobName b, path := getBlobPath b,
    lastModified := some b.updated, created := some b.updated,
    mimetype := b.contentType, format := none, writable := true }

/-- Source `JupyterGoogleStorageContentManager._read_file(blob, format)`:
`None`/`"text"` try UTF-8 (an explicit `"text"` request turns a decode
failure into an `HTTPError 400` naming the blob path); every other case
(including a `UnicodeError` fallback) base64-encodes the raw bytes. -/
def readFile (b : Blob) (format : Option String) :
    Except PyErr (String × String) :=
  if format = none ∨ format = some "text" then
    match utf8Decode b.content with
    | some s => .ok (s, "text")
    | none =>
      if format = some "text" then
        .error (.http 400 (getBlobPath b ++ " is not UTF-8 encoded"))
      else .ok (encodebytes b.content, "base64")
  else .ok (encodebytes b.content, "base64")

/-- Source `JupyterGoogleStorageContentManager._file_model(blob, content,
format)`; the default mimetype (text/plain or octet-stream by decoded
format) applies only when the backend reports none. -/
def fileModel (b : Blob) (content : Bool) (format : Option String) :
    Except PyErr ModelOut :=
  let base := baseModel b "file"
  if content then
    match readFile b format with
    | .error e => .error e
    | .ok (c, fmt) =>
      let mime := match base.mimetype with
        | some m => some m
        | none => some (if fmt = "text" then "text/plain" else "application/octet-stream")
      .ok { base := { base with mimetype := mime, format := some fmt },
            contentStr := some c }
  else .ok { base := base }

/-- The notebook document codec (external collaborator).  Modelled from
the spec: `parse(bytes) -> document`, `serialize(document) -> bytes`,
with documents carried as their serialized text, so `nbReads` and
`nbWrites` are the UTF-8 edge of an identity codec.  `from_dict`,
`check_and_sign`, `mark_trusted_cells` and `validate_notebook_model`
do not change the document text and are identities / no-ops here. -/
def nbWrites (nb : String) : String := nb

/-- External `nbformat.reads` on already-decoded text (see `nbWrites`). -/
def nbReads (data : String) : String := data

/-- Source `JupyterGoogleStorageContentManager._read_notebook(blob)`:
UTF-8-decode (`UnicodeDecodeError` propagates) and parse. -/
def readNotebook (b : Blob) : Except PyErr String :=
  match utf8Decode b.content with
  | some data => .ok (nbReads data)
  | none => .error .unicodeError

/-- Source `JupyterGoogleStorageContentManager._notebook_model(blob, content)`. -/
def notebookModel (b : Blob) (content : Bool) : Except PyErr ModelOut :=
  let base := baseModel b "notebook"
  if content then
    match readNotebook b with
    | .error e => .error e
    | .ok nb => .ok { base := { base with format := some "json" }, contentNb := some nb }
  else .ok { base := base }

/-- The blob children kept by `_dir_model`'s listing loop: an entry is
kept when its resolved path differs from the directory's own path and
its name passes the visibility filter. -/
def selectBlobs (mgr : Manager) (path : String) (blobs : List Blob) : List Blob :=
  blobs.filter
    (fun b => decide (getBlobPath b ≠ path) && mgr.shouldList (getBlobName b))

/-- The folder children kept by `_dir_model`'s listing loop: an entry is
kept when it passes the visibility filter and differs from the
directory's own object key. -/
def selectFolders (mgr : Manager) (path : String) (folders : List String) :
    List String :=
  folders.filter
    (fun f => mgr.shouldList f && decide (f ≠ (parsePath path).2))

/-- Source `JupyterGoogleStorageContentManager._dir_model(path, members,
content)`, with the recursive `self.get(..., content=False)` calls for
the children supplied as `childGet`.  A blob child is kept when its
resolved path differs from the directory's own path and its name passes
the visibility filter (`selectBlobs`); a folder child when it passes the
filter and differs from the directory's own object key
(`selectFolders`). -/
def dirModelM (mgr : Manager) (childGet : String → M ModelBase)
    (path : String) (members : FetchPayload) (content : Bool) : M ModelOut := do
  let writable ←
    if path = "" then pure false
    else if members ≠ FetchPayload.nul then pure true
    else do
      let h ← isHiddenM mgr path
      pure (!h)
  let base : ModelBase :=
    { type := "directory", name := getDirName path, path := path,
      lastModified := none, created := none,
      mimetype := some "application/x-directory", format := none,
      writable := writable }
  if content then do
    let (blobs, folders) ←
      match members with
      | .listing fs gs => pure (fs, gs)
      | .rootListing fs gs => pure (fs, gs)
      | _ => throwE .typeError
    let childrenB ← (selectBlobs mgr path blobs).foldlM
      (fun acc b => do
        let m ← childGet (getBlobPath b)
        pure (acc ++ [m])) []
    let tmpl : String → String :=
      if path ≠ "" then fun f => (parsePath path).1 ++ "/" ++ f ++ "/"
      else fun f => f
    let childrenF ← (selectFolders mgr path folders).foldlM
      (fun acc f => do
        let m ← childGet (tmpl f)
        pure (acc ++ [m])) []
    pure { base := { base with format := some "json" },
           children := some (childrenB ++ childrenF) }
  else
    pure { base := base }

/-- Source `JupyterGoogleStorageContentManager.get(path, content, type,
format)`, fuel-indexed for the child recursion of `_dir_model` (children
are fetched with `content=False` and recurse no further, so fuel `2`
realizes every call; `recursionLimit` is unreachable at that bound).
The `isinstance(path, Blob)` entry is realized by calling with the
blob's resolved path, which is what the re-fetch inside makes of it. -/
def getF : Nat → Manager → String → Bool → Option String → Option String → M ModelOut
  | 0, _, _, _, _, _ => throwE .recursionLimit
  | fuel + 1, mgr, path0, content, type?, format? => do
    let path := stripSlash path0
    if !strHas path '/' || strEndsWith path "/" || type? == some "directory" then do
      if type? ≠ none ∧ type? ≠ some "directory" then
        throwE (.http 400 (path ++ " is not a directory"))
      else do
        let path := if strHas path '/' && !strEndsWith path "/" then path ++ "/" else path
        let (ex, members) ← fetchM mgr path content
        if ex.truthy then
          dirModelM mgr
            (fun p => do
              let m ← getF fuel mgr p false none none
              pure m.base)
            path members content
        else throwE (.http 404 ("No such directory: " ++ path))
    else do
      let (ex, payload) ← fetchM mgr path true
      if ex.truthy then
        match payload with
        | .blob b =>
          if type? == some "notebook" || (type? == none && strEndsWith path ".ipynb") then
            liftE (notebookModel b content)
          else liftE (fileModel b content format?)
        | _ => throwE .attributeError
      else throwE (.http 404 ("No such file: " ++ path))

/-- Source `get` at the sufficient recursion depth. -/
def getM (mgr : Manager) (path : String) (content : Bool)
    (type? format? : Option String) : M ModelOut :=
  getF 2 mgr path content type? format?

/-! ## Mutation Engine -/

/-- Source `JupyterGoogleStorageContentManager._save_notebook(path, nb)`:
serialize and upload as `application/x-ipynb+json`. -/
def saveNotebookM (mgr : Manager) (path : String) (nb : String) : M Blob := do
  let bucketName := (parsePath path).1
  let bucketPath := (parsePath path).2
  let _ ← getBucketM mgr bucketName true
  let data := utf8Encode (nbWrites nb)
  uploadB bucketName bucketPath data (some "application/x-ipynb+json")

/-- Source `JupyterGoogleStorageContentManager._save_file(path, content,
format)`: the format must be `"text"` or `"base64"` (else `HTTPError
400`); decode accordingly (failures become `HTTPError 400` naming the
path) and upload (`upload_from_string` defaults the content type to
`text/plain`). -/
def saveFileM (mgr : Manager) (path : String) (content : String)
    (format : Option String) : M Blob := do
  let bucketName := (parsePath path).1
  let bucketPath := (parsePath path).2
  let _ ← getBucketM mgr bucketName true
  if format ≠ some "text" ∧ format ≠ some "base64" then
    throwE (.http 400 "Must specify format of file contents as \"text\" or \"base64\"")
  else do
    let dec : Except PyErr (List Nat) :=
      if format = some "text" then .ok (utf8Encode content)
      else
        match asciiEncode content with
        | .ok b64 => decodebytes b64
        | .error e => .error e
    match dec with
    | .ok bcontent => uploadB bucketName bucketPath bcontent (some "text/plain")
    | .error e => throwE (.http 400 ("Encoding error saving " ++ path ++ ": " ++ reprStr e))

/-- Source `JupyterGoogleStorageContentManager._save_directory(path, model)`:
idempotent on an existing directory, `HTTPError 400` when a blob sits at
the path, otherwise create the bucket (root) or upload an empty
directory-marker object. -/
def saveDirectoryM (mgr : Manager) (path : String) : M Unit := do
  let (ex, obj) ← fetchM mgr path true
  if ex.truthy then
    match obj with
    | .blob _ => throwE (.http 400 ("Not a directory: " ++ path))
    | _ => pure ()
  else do
    let bucketName := (parsePath path).1
    let bucketPath := (parsePath path).2
    if bucketPath = "" then createBucketB bucketName
    else do
      let _ ← getBucketM mgr bucketName true
      let _ ← uploadB bucketName (bucketPath ++ "/") [] (some "application/x-directory")
      pure ()

/-! ## Checkpoint Subsystem -/

/-- A checkpoint description (`{"id": ..., "last_modified": ...}`). -/
structure Checkpoint where
  id : String
  lastModified : Nat
  deriving DecidableEq, Repr

/-- Insert into a list sorted by `lastModified` descending. -/
def insertDesc (c : Checkpoint) : List Checkpoint → List Checkpoint
  | [] => [c]
  | d :: ds => if d.lastModified < c.lastModified then c :: d :: ds
               else d :: insertDesc c ds

/-- Python `checkpoints.sort(key=last_modified, reverse=True)`. -/
def sortDesc (l : List Checkpoint) : List Checkpoint :=
  l.foldr insertDesc []

/-- External `str(uuid.uuid4())` (external): the next value of the state's uuid
oracle. -/
def genUuidM : M String := fun s =>
  ({ s with uuids := s.uuids.drop 1 },
   .ok (s.uuids.headD "00000000-0000-4000-8000-000000000000"))

/-- Source `GoogleStorageCheckpoints._get_checkpoint_path(checkpoint_id, path)`:
strip a leading slash, resolve, optionally redirect to the checkpoint
bucket, and build
`<bucket>/<dir><checkpoint_dir>/<basename>-<id><ext>` (no `-<id><ext>`
tail when `checkpoint_id` is `None` — the listing prefix). -/
def getCheckpointPath (mgr : Manager) (checkpointId : Option String)
    (path0 : String) : String :=
  let path := stripSlash path0
  let bucketName0 := (parsePath path).1
  let bucketPath := (parsePath path).2
  let bucketName := if mgr.checkpointBucket ≠ "" then mgr.checkpointBucket else bucketName0
  let slash := rfindSucc '/' bucketPath.data
  let stem := splitext (strDrop bucketPath slash)
  match checkpointId with
  | some cid =>
    bucketName ++ "/" ++ strTake bucketPath slash ++ mgr.checkpointDir ++ "/" ++
      stem.1 ++ "-" ++ cid ++ stem.2
  | none =>
    bucketName ++ "/" ++ strTake bucketPath slash ++ mgr.checkpointDir ++ "/" ++ stem.1

/-- The checkpoint id recovered from a listed blob:
`os.path.splitext(file.path)[0][-36:]` on the API path. -/
def checkpointIdOf (b : Blob) : String :=
  strTakeRight (splitext (blobApiPath b)).1 36

/-- Source `GoogleStorageCheckpoints.list_checkpoints(path)`: prefix-list the
checkpoint namespace of `path` and sort descending by `last_modified`;
`NotFound` during the scan yields `[]`.  (When `_get_bucket` returns
`None` for a missing bucket, `None.list_blobs` raises `AttributeError`,
which the `except NotFound` clause does not catch.) -/
def listCheckpointsM (mgr : Manager) (path : String) : M (List Checkpoint) := do
  let cp := getCheckpointPath mgr none path
  let bucketName := (parsePath cp).1
  let bucketPath := (parsePath cp).2
  let r ← catchE (do
      let b? ← getBucketM mgr bucketName false
      match b? with
      | none => throwE .attributeError
      | some bucket => do
        let (files, _) ← listBlobsM bucket bucketPath mgr.maxListSize
        pure (some (files.map (fun f => Checkpoint.mk (checkpointIdOf f) f.updated))))
    (fun e => if e = .notFound then pure none else throwE e)
  match r with
  | none => pure []
  | some checkpoints => pure (sortDesc checkpoints)

/-- Source `GoogleStorageCheckpoints.create_notebook_checkpoint(nb, path)`:
generate an id, derive the checkpoint path and save the notebook there. -/
def createNotebookCheckpointM (mgr : Manager) (nb : String) (path : String) :
    M Checkpoint := do
  let checkpointId ← genUuidM
  let cp := getCheckpointPath mgr (some checkpointId) path
  let blob ← saveNotebookM mgr cp nb
  pure (Checkpoint.mk checkpointId blob.updated)

/-- Source `GoogleStorageCheckpoints.create_file_checkpoint(content, format,
path)`. -/
def createFileCheckpointM (mgr : Manager) (content : String)
    (format : Option String) (path : String) : M Checkpoint := do
  let checkpointId ← genUuidM
  let cp := getCheckpointPath mgr (some checkpointId) path
  let blob ← saveFileM mgr cp content format
  pure (Checkpoint.mk checkpointId blob.updated)

/-- Modelled from the spec: `ContentsManager.create_checkpoint` (the
owning collection's public accessor, external to this repository)
reaches `GenericCheckpointsMixin.create_checkpoint`, which re-reads the
model with content and dispatches to `create_notebook_checkpoint` /
`create_file_checkpoint` (other types are a 500-class error). -/
def createCheckpointM (mgr : Manager) (path : String) : M Checkpoint := do
  let m ← getM mgr path true none none
  if m.base.type = "notebook" then
    match m.contentNb with
    | some nb => createNotebookCheckpointM mgr nb path
    | none => throwE .keyError
  else if m.base.type = "file" then
    match m.contentStr with
    | some c => createFileCheckpointM mgr c m.base.format path
    | none => throwE .keyError
  else throwE (.http 500 ("Unexpected type: " ++ m.base.type))

/-! ## Hooks and `save` -/

/-- The local names bound in the body of `run_post_save_hook`. -/
def runPostSaveHookScope : List String := ["self", "model", "os_path"]

/-- The module-level names of `jgscm/__init__.py`. -/
def moduleScope : List String :=
  ["base64", "os", "uuid", "NotFound", "Forbidden", "BadRequest",
   "GSClient", "Blob", "nbformat", "Checkpoints", "GenericCheckpointsMixin",
   "ContentsManager", "web", "url_unescape", "Any", "Bool", "Int", "Unicode",
   "GoogleStorageCheckpoints", "JupyterGoogleStorageContentManager"]

/-- Python name resolution at a use site inside `run_post_save_hook`:
locals, then module globals / builtins; an unbound name is a
`NameError`. -/
def lookupName (n : String) : Except PyErr Unit :=
  if n ∈ runPostSaveHookScope ∨ n ∈ moduleScope then .ok () else .error .nameError

/-- Record an actual invocation of the post-save hook and run it. -/
def invokeHookM (hook : HookFn) (osPath modelPath : String) : M Unit := fun s =>
  match hook osPath modelPath with
  | .ok () => ({ s with hookInvocations := s.hookInvocations ++ [osPath] }, .ok ())
  | .error e => ({ s with hookInvocations := s.hookInvocations ++ [osPath] }, .error e)

/-- Source `JupyterGoogleStorageContentManager.run_post_save_hook(model,
os_path)`: when a hook is configured, the call site
`self.post_save_hook(os_path=path, model=model, contents_manager=self)`
evaluates the name `path`, which is not bound in this function (its
parameter is `os_path`) nor at module level, so a `NameError` is raised
while building the arguments; the `except Exception` clause catches it
and logs.  Were the name resolvable, the hook would run with its own
exceptions equally logged, never propagated. -/
def runPostSaveHookM (mgr : Manager) (model : ModelOut) (osPath : String) :
    M Unit :=
  match mgr.postSaveHook with
  | none => pure ()
  | some hook =>
    catchE
      (match lookupName "path" with
       | .error e => throwE e
       | .ok () => invokeHookM hook osPath model.base.path)
      (fun _ => logErrorM)

/-- A printable class/message for the 500-wrap in `save`. -/
def pyErrText : PyErr → String
  | .http _ m => m
  | .notFound => "NotFound"
  | .forbidden => "Forbidden"
  | .badRequest => "BadRequest"
  | .valueError => "ValueError"
  | .typeError => "TypeError"
  | .keyError => "KeyError"
  | .nameError => "NameError"
  | .attributeError => "AttributeError"
  | .unicodeError => "UnicodeError"
  | .recursionLimit => "RecursionLimit"

/-- The model argument of `save`: the fields the source reads.  The
`content` of a notebook model is its (serialized) document, of a file
model its string payload (see `nbWrites`). -/
structure SaveModel where
  type? : Option String := none
  content? : Option String := none
  format? : Option String := none

/-- The checkpoint guarantee inside the notebook branch of `save`:
`if not self.checkpoints.list_checkpoints(path): self.create_checkpoint(path)`. -/
def ensureCheckpointM (mgr : Manager) (path : String) (cps : List Checkpoint) :
    M Unit :=
  if cps.isEmpty then do
    let _ ← createCheckpointM mgr path
    pure ()
  else pure ()

/-- The `except`-clauses around the dispatch of `save`: an `HTTPError`
re-raises unchanged; anything else is logged and wrapped into a 500
naming the path and the message. -/
def saveWrapM (path : String) (e : PyErr) : M Unit :=
  match e with
  | .http st m => throwE (.http st m)
  | e => do
    logErrorM
    throwE (.http 500 ("Unexpected error while saving file: " ++ path
      ++ " " ++ pyErrText e))

/-- The dispatch-by-type block of `save` (inside the `try`): an
unhandled type raises `HTTPError` with the status literal `00`, i.e.
`0`. -/
def saveDispatchM (mgr : Manager) (model : SaveModel) (mtype path : String) :
    M Unit :=
  if mtype = "notebook" then do
    let nb := model.content?.getD ""
    let _ ← saveNotebookM mgr path nb
    let cps ← listCheckpointsM mgr path
    ensureCheckpointM mgr path cps
  else if mtype = "file" then do
    let _ ← saveFileM mgr path (model.content?.getD "") model.format?
    pure ()
  else if mtype = "directory" then
    saveDirectoryM mgr path
  else
    throwE (.http 0 ("Unhandled contents type: " ++ mtype))

/-- The tail of `save` after the dispatch: re-read the content-less
model (for notebooks the source re-runs validation, whose message is
`None` in this embedding's external-codec model) and run the post-save
hook. -/
def saveFinishM (mgr : Manager) (path : String) : M ModelOut := do
  let m ← getM mgr path false none none
  runPostSaveHookM mgr m path
  pure m

/-- Source `JupyterGoogleStorageContentManager.save(model, path)`:
validate the model fields, restrict root-level saves to directories,
coerce directory paths to a trailing `/`, run the pre-save hook (none is
configured by default: a no-op), dispatch by type (`saveDispatchM`)
re-raising `HTTPError`s and wrapping anything else into a 500
(`saveWrapM`); then re-read the content-less model and run the
post-save hook — logged, never raised (`saveFinishM`).  For notebooks
the dispatch ensures at least one checkpoint exists after the save. -/
def saveM (mgr : Manager) (model : SaveModel) (path0 : String) : M ModelOut := do
  let path := stripSlash path0
  match model.type? with
  | none => throwE (.http 400 "No file type provided")
  | some mtype => do
    if model.content? = none ∧ mtype ≠ "directory" then
      throwE (.http 400 "No file content provided")
    else do
      let bucketPath := (parsePath path).2
      if bucketPath = "" ∧ mtype ≠ "directory" then
        throwE (.http 403 "You may only create directories (buckets) at the root level.")
      else do
        let path := if bucketPath ≠ "" ∧ mtype = "directory" then path ++ "/" else path
        catchE (saveDispatchM mgr model mtype path) (saveWrapM path)
        saveFinishM mgr path

/-! ## Rename -/

/-- Source `JupyterGoogleStorageContentManager.rename_file(old_path,
new_path)`, fuel-indexed for the directory recursion.  The source's
`old_bucket.get_blob()` call omits the required blob-name argument, so a
`TypeError` is raised there on every call; the remainder of the body is
translated faithfully after it (in the cross-bucket loop the source
deletes the stale `old_blob` — `None` in that branch — instead of the
copied child `ob`). -/
def renameFileF : Nat → Manager → String → String → M Unit
  | 0, _, _, _ => throwE .recursionLimit
  | fuel + 1, mgr, oldPath0, newPath0 => do
    let oldPath := stripSlash oldPath0
    let newPath := stripSlash newPath0
    let oldBucketName := (parsePath oldPath).1
    let oldBucketPath := (parsePath oldPath).2
    let _ ← getBucketM mgr oldBucketName true
    let newBucketName := (parsePath newPath).1
    let newBucketPath := (parsePath newPath).2
    let _ ← getBucketM mgr newBucketName true
    let oldBlob ← (throwE .typeError : M (Option Blob))
    if oldBucketName = newBucketName then
      match oldBlob with
      | some ob => do
        let _ ← renameBlobB oldBucketName ob newBucketPath
        pure ()
      | none => do
        let (oldBlobs, prefixes) ← listBlobsM oldBucketName oldBucketPath mgr.maxListSize
        let folders := prefixes.map (fun f => strDropRight f 1)
        oldBlobs.forM (fun ob => do
          let _ ← renameBlobB oldBucketName ob
            (newBucketPath ++ "/" ++ getBlobName ob)
          pure ())
        folders.forM (fun f =>
          renameFileF fuel mgr (oldBucketPath ++ "/" ++ f) (newBucketPath ++ "/" ++ f))
    else
      match oldBlob with
      | some ob => do
        let _ ← copyBlobB oldBucketName ob newBucketName newBucketPath
        deleteBlobB oldBucketName (some ob)
      | none => do
        let (oldBlobs, prefixes) ← listBlobsM oldBucketName oldBucketPath mgr.maxListSize
        let folders := prefixes.map (fun f => strDropRight f 1)
        oldBlobs.forM (fun ob => do
          let _ ← copyBlobB oldBucketName ob newBucketName
            (newBucketPath ++ "/" ++ getBlobName ob)
          deleteBlobB oldBucketName oldBlob)
        folders.forM (fun f =>
          renameFileF fuel mgr (oldBucketPath ++ "/" ++ f) (newBucketPath ++ "/" ++ f))

/-- Source `rename_file` at a recursion depth covering the cited scenario. -/
def renameFileM (mgr : Manager) (oldPath newPath : String) : M Unit :=
  renameFileF 4 mgr oldPath newPath

/-! ## Claim scenarios -/

/-- Decidable equality of results. -/
instance {ε α : Type} [DecidableEq ε] [DecidableEq α] : DecidableEq (Except ε α) :=
  fun x y =>
    match x, y with
    | .ok a, .ok b =>
      if h : a = b then isTrue (by rw [h]) else isFalse (by simp [h])
    | .error e, .error f =>
      if h : e = f then isTrue (by rw [h]) else isFalse (by simp [h])
    | .ok _, .error _ => isFalse (by simp)
    | .error _, .ok _ => isFalse (by simp)

/-- A manager with the source's default configuration; the external
visibility filter is instantiated to hide nothing (claims quantifying
over the filter take it as a parameter instead). -/
def defaultMgr : Manager := { shouldList := fun _ => true }

/-- Truthiness of the fetch existence answer for a path. -/
def fetchTruthy (s : GCSState) (p : String) : Bool :=
  match (fetchM defaultMgr p true s).2 with
  | .ok (t, _) => t.truthy
  | .error _ => false

/-- C1 scenario: container `b1` holds the directory children `dir/x`,
`dir/y`; container `b2` exists and is empty. -/
def c1State : GCSState :=
  { buckets := ["b1", "b2"],
    blobs := [{ bucket := "b1", name := "dir/x", content := [1] },
              { bucket := "b1", name := "dir/y", content := [2] }] }

/-- The state after the attempted cross-container directory rename. -/
def c1After : GCSState := (renameFileM defaultMgr "b1/dir/" "b2/dir2/" c1State).1

/-- C2 scenario: the saved path. -/
def c2path : String := "bucket/nb.ipynb"

/-- C2 scenario: the notebook model being saved (document text `nbdoc`). -/
def c2model : SaveModel := { type? := some "notebook", content? := some "nbdoc" }

/-- C2 scenario: bucket `bucket` exists, an arbitrary set of
pre-existing objects, and the uuid oracle yields `cp-id-0001`. -/
def c2state (bs : List Blob) : GCSState :=
  { buckets := ["bucket"], blobs := bs, uuids := ["cp-id-0001"] }

/-- The notebook blob uploaded by the C2 save. -/
def c2nbBlob : Blob :=
  { bucket := "bucket", name := "nb.ipynb", content := utf8Encode "nbdoc",
    contentType := some "application/x-ipynb+json", updated := 1 }

/-- The checkpoint blob created by the C2 save. -/
def c2cpBlob : Blob :=
  { bucket := "bucket", name := ".ipynb_checkpoints/nb-cp-id-0001.ipynb",
    content := utf8Encode "nbdoc", contentType := some "application/x-ipynb+json",
    updated := 2 }

/-- Replacement filter of the notebook upload (`uploadB` dedup). -/
def c2pnb (x : Blob) : Bool := !(blobAt "bucket" "nb.ipynb" x)

/-- Replacement filter of the checkpoint upload (`uploadB` dedup). -/
def c2pncp (x : Blob) : Bool :=
  !(blobAt "bucket" ".ipynb_checkpoints/nb-cp-id-0001.ipynb" x)

/-- The checkpoint-prefix match of `listObjects` for the C2 path. -/
def c2pm (b : Blob) : Bool :=
  b.bucket == "bucket" && listIsPrefix ".ipynb_checkpoints/nb".data b.name.data

/-- The direct-object (no further `/`) condition of `listObjects` for
the C2 checkpoint prefix. -/
def c2pns (b : Blob) : Bool :=
  !((keyTail ".ipynb_checkpoints/nb" b.name).any (· == '/'))

/-- The checkpoint record derived from a listed blob (C2 listing). -/
def c2mkCp (f : Blob) : Checkpoint := Checkpoint.mk (checkpointIdOf f) f.updated

/-- The C2 state after the notebook upload. -/
def c2st1 (bs : List Blob) : GCSState :=
  { buckets := ["bucket"], blobs := c2nbBlob :: bs.filter c2pnb,
    bucketCache := ["bucket"], uuids := ["cp-id-0001"], clock := 2 }

/-- The C2 state after the checkpoint creation. -/
def c2st2 (bs : List Blob) : GCSState :=
  { buckets := ["bucket"],
    blobs := c2cpBlob :: (c2nbBlob :: (bs.filter c2pnb).filter c2pncp),
    bucketCache := ["bucket"], uuids := [], clock := 3 }

/-- The content-less notebook model returned by the C2 save. -/
def c2m : ModelOut :=
  { base := { type := "notebook", name := "nb.ipynb", path := "bucket/nb.ipynb",
              lastModified := some 1, created := some 1,
              mimetype := some "application/x-ipynb+json", format := none,
              writable := true } }

/-- The continuation of the C2 save from the checkpoint-emptiness test
on (the save is definitionally this continuation at the checkpoint list
it computes). -/
def c2afterCps (bs : List Blob) (cps : List Checkpoint) :
    GCSState × Except PyErr ModelOut :=
  mBind (catchE (ensureCheckpointM defaultMgr c2path cps) (saveWrapM c2path))
        (fun _ => saveFinishM defaultMgr c2path) (c2st1 bs)

/-- C3 scenario: bucket `b` exists and is empty. -/
def c3State : GCSState := { buckets := ["b"] }

/-- C3 round trip: save `content` with `fmt` via `_save_file`, then
fetch the file model with the same requested format; the observed
(content, format) of the fetched model, or `none` if either step
failed. -/
def roundTripSave (content : String) (fmt : Option String) :
    Option (Option String × Option String) :=
  match saveFileM defaultMgr "b/f.txt" content fmt c3State with
  | (s1, .ok _) =>
    match (getM defaultMgr "b/f.txt" true none fmt s1).2 with
    | .ok m => some (m.contentStr, m.base.format)
    | .error _ => none
  | (_, .error _) => none

/-- C5 scenario: bucket `b` exists; `missing.txt` does not. -/
def c5State : GCSState := { buckets := ["b"] }

/-- C6 witness scenario: the backend denies access to bucket `hidden`. -/
def c6State : GCSState := { buckets := ["b"], forbidden := ["hidden"] }

/-- C7 scenario: objects `bucket/dir/a`, `bucket/dir/b` and the
`bucket/dir/` marker. -/
def c7State : GCSState :=
  { buckets := ["bucket"],
    blobs := [{ bucket := "bucket", name := "dir/",
                contentType := some "application/x-directory" },
              { bucket := "bucket", name := "dir/a", content := [1] },
              { bucket := "bucket", name := "dir/b", content := [2] }] }

/-- The paths of the children models listed for `bucket/dir/`. -/
def c7childPaths : Option (List String) :=
  match (getM defaultMgr "bucket/dir/" true none none c7State).2 with
  | .ok m => m.children.map (fun cs => cs.map ModelBase.path)
  | .error _ => none

/-- A blob used to witness the C7 selection property. -/
def c7wBlob : Blob := { bucket := "bucket", name := "dir/a", content := [1] }

/-- C8 scenario: bucket `bucket` exists. -/
def c8State : GCSState := { buckets := ["bucket"] }

/-- C8 scenario: a model whose type is none of notebook/file/directory. -/
def c8Model : SaveModel := { type? := some "unknown", content? := some "x" }

/-- C9 scenario: a configured post-save hook that would succeed if it
were ever called. -/
def c9hook : HookFn := fun _ _ => .ok ()

/-- C9 scenario: the default manager with the hook configured. -/
def c9mgr : Manager := { shouldList := fun _ => true, postSaveHook := some c9hook }

/-- C9 scenario: bucket `bucket` exists. -/
def c9State : GCSState := { buckets := ["bucket"] }

/-- C9 scenario: a plain text file model. -/
def c9Model : SaveModel :=
  { type? := some "file", content? := some "hi", format? := some "text" }

/-- The C9 save run (succeeds; the hook is the observable). -/
def c9Run : GCSState × Except PyErr ModelOut := saveM c9mgr c9Model "bucket/f.txt" c9State

/-- A model argument for the C9 witness. -/
def c9wModel : ModelOut := { base := { type := "file", name := "f", path := "b/f" } }

/-- C10 counterexample scenario: the backend denies access to bucket
`b` (which exists and holds a marker blob `d/`). -/
def c10ForbiddenState : GCSState :=
  { buckets := ["b"], forbidden := ["b"],
    blobs := [{ bucket := "b", name := "d/" }] }

/-- C10 witness scenario: bucket `b` with a physically existing marker
blob `d/`. -/
def c10State : GCSState :=
  { buckets := ["b"], blobs := [{ bucket := "b", name := "d/" }] }

/-! ## Supporting lemmas -/

/-- Unfolding rule: the `Bind.bind` of the `M` monad is `mBind`. -/
@[simp] theorem bindM_eq {α β : Type} :
    (Bind.bind : M α → (α → M β) → M β) = mBind := rfl

/-- Unfolding rule: the `Pure.pure` of the `M` monad is `mPure`. -/
@[simp] theorem pureM_eq {α : Type} : (Pure.pure : α → M α) = mPure := rfl

/-- Inserting into a sorted checkpoint list never yields the empty
list. -/
theorem insertDesc_ne_nil (c : Checkpoint) (l : List Checkpoint) :
    insertDesc c l ≠ [] := by
  cases l with
  | nil => simp [insertDesc]
  | cons d ds =>
    simp only [insertDesc]
    split <;> simp

/-- A sort producing the empty list started from the empty list. -/
theorem sortDesc_eq_nil {l : List Checkpoint} (h : sortDesc l = []) : l = [] := by
  cases l with
  | nil => rfl
  | cons c cs => exact absurd h (insertDesc_ne_nil c (sortDesc cs))

/-- Interposing a further filter preserves an empty double-filter. -/
theorem filter_filter_sub {α : Type} (l : List α) (p q r : α → Bool)
    (h : (l.filter q).filter r = []) : ((l.filter p).filter q).filter r = [] := by
  rw [List.filter_eq_nil_iff] at h ⊢
  intro a ha
  have h1 : a ∈ (l.filter p).filter q := ha
  have h2 : a ∈ l.filter q := by
    rcases List.mem_filter.mp h1 with ⟨hmem, hq⟩
    rcases List.mem_filter.mp hmem with ⟨hl, _⟩
    exact List.mem_filter.mpr ⟨hl, hq⟩
  exact h a h2

/-- A split that reports no separator scanned the whole list. -/
theorem splitOnce_eq_none {sep : Char} {l : List Char}
    (h : splitOnce sep l = none) : sep ∉ l := by
  induction l with
  | nil => simp
  | cons c cs ih =>
    simp only [splitOnce] at h
    by_cases hc : c = sep
    · simp [hc] at h
    · rw [if_neg hc] at h
      intro hmem
      rcases List.mem_cons.mp hmem with h1 | h2
      · exact hc h1.symm
      · cases hsp : splitOnce sep cs with
        | some p => rw [hsp] at h; simp at h
        | none => exact (ih hsp) h2

/-- A successful split decomposes the list at the first separator. -/
theorem splitOnce_eq_some {sep : Char} :
    ∀ {l a b : List Char}, splitOnce sep l = some (a, b) →
      l = a ++ sep :: b ∧ sep ∉ a := by
  intro l
  induction l with
  | nil => intro a b h; simp [splitOnce] at h
  | cons c cs ih =>
    intro a b h
    simp only [splitOnce] at h
    by_cases hc : c = sep
    · rw [if_pos hc] at h
      rw [Option.some.injEq, Prod.mk.injEq] at h
      obtain ⟨ha, hb⟩ := h
      subst ha; subst hb; subst hc
      exact ⟨rfl, by simp⟩
    · rw [if_neg hc] at h
      cases hsp : splitOnce sep cs with
      | none => rw [hsp] at h; simp at h
      | some p =>
        obtain ⟨a1, b1⟩ := p
        rw [hsp] at h
        rw [show (some (a1, b1)).map (fun q => (c :: q.1, q.2)) = some (c :: a1, b1)
          from rfl] at h
        rw [Option.some.injEq, Prod.mk.injEq] at h
        obtain ⟨ha, hb⟩ := h
        obtain ⟨hl, hnm⟩ := ih (a := a1) (b := b1) hsp
        subst ha; subst hb
        refine ⟨by rw [hl]; rfl, ?_⟩
        intro hm
        rcases List.mem_cons.mp hm with h1 | h2
        · exact hc h1.symm
        · exact hnm h2

/-! ## Claim theorems -/

/-- C4: `resolve` (`_parse_path`) splits every slash-free-prefix path at
its first `/`: the returned container id contains no `/`; when a `/` is
present the path is exactly `containerId ++ "/" ++ objectKey`, and when
none is present the result is `(path, "")`; in particular
`resolve("a/b/c") = ("a", "b/c")` and `resolve("a") = ("a", "")`.  The
function is total (the source catches the only possible `ValueError`),
so it never raises. -/
theorem resolve_splits_at_first_slash (p : String)
    (h : strStartsWith p "/" = false) :
    ('/' ∉ (parsePath p).1.data
      ∧ (p.data = if '/' ∈ p.data then
            (parsePath p).1.data ++ '/' :: (parsePath p).2.data
          else (parsePath p).1.data)
      ∧ ('/' ∉ p.data → parsePath p = (p, "")))
    ∧ parsePath "a/b/c" = ("a", "b/c")
    ∧ parsePath "a" = ("a", "") := by
  refine ⟨?_, by decide, by decide⟩
  cases hsp : splitOnce '/' p.data with
  | none =>
    have hn := splitOnce_eq_none hsp
    refine ⟨?_, ?_, ?_⟩ <;> simp [parsePath, hsp, hn]
  | some pr =>
    obtain ⟨a, b⟩ := pr
    obtain ⟨hl, hnm⟩ := splitOnce_eq_some hsp
    have hmem : '/' ∈ p.data := by rw [hl]; simp
    simp only [parsePath, hsp]
    refine ⟨hnm, ?_, fun hcon => absurd hmem hcon⟩
    rw [if_pos hmem]
    exact hl

/-- C4 witness: the split property instantiated at `"a/b/c"`. -/
theorem resolve_splits_at_first_slash_witness :
    ('/' ∉ (parsePath "a/b/c").1.data
      ∧ ("a/b/c".data = if '/' ∈ "a/b/c".data then
            (parsePath "a/b/c").1.data ++ '/' :: (parsePath "a/b/c").2.data
          else (parsePath "a/b/c").1.data)
      ∧ ('/' ∉ "a/b/c".data → parsePath "a/b/c" = ("a/b/c", "")))
    ∧ parsePath "a/b/c" = ("a", "b/c")
    ∧ parsePath "a" = ("a", "") :=
  resolve_splits_at_first_slash "a/b/c" (by decide)

/-- C1: the cross-container directory rename
`rename("b1/dir/", "b2/dir2/")` does not satisfy the claimed contract.
The source's `old_bucket.get_blob()` call omits the required blob-name
argument and raises `TypeError`, so the rename fails with nothing
copied or deleted: both children still exist under the old prefix and
neither exists under the new one (the blob set is unchanged).  (Even
past that call, the cross-container loop would delete the stale
`old_blob` — `None` in the directory branch — instead of each copied
child, again leaving the old children in place.) -/
theorem rename_cross_container_moves_nothing :
    (renameFileM defaultMgr "b1/dir/" "b2/dir2/" c1State).2 = .error .typeError
    ∧ c1After.blobs = c1State.blobs
    ∧ fetchTruthy c1After "b1/dir/x" = true
    ∧ fetchTruthy c1After "b1/dir/y" = true
    ∧ fetchTruthy c1After "b2/dir2/x" = false
    ∧ fetchTruthy c1After "b2/dir2/y" = false := by decide

/-- C3: the save/fetch round trip on file content.  Saving `"hello"`
with format `text` and fetching with format `text` returns `"hello"`;
saving the code's base64 encoding of `"hello"` (namely
`base64.encodebytes`' output `"aGVsbG8=\n"`) with format `base64` and
fetching with format `base64` returns the same base64 string. -/
theorem file_content_round_trip :
    roundTripSave "hello" (some "text") = some (some "hello", some "text")
    ∧ roundTripSave "aGVsbG8=\n" (some "base64")
        = some (some "aGVsbG8=\n", some "base64")
    ∧ encodebytes (utf8Encode "hello") = "aGVsbG8=\n" := by decide

/-- C5: with content not requested on a plain (non-directory) key, the
claimed boolean existence answer is wrong on the code: the source
returns the *un-called* bound method `bucket.blob(path).exists` (missing
call parentheses), a value that is always truthy — here the object does
not exist, yet the first component is the truthy `boundMethod`, not
`False`. -/
theorem fetch_existence_probe_left_uncalled :
    (fetchM defaultMgr "b/missing.txt" false c5State).2 = .ok (.boundMethod, .nul)
    ∧ PyTruth.truthy .boundMethod = true
    ∧ blobExistsB c5State "b" "missing.txt" = false := by decide

/-- The bucket lookup raises `Forbidden` exactly when the backend denies
the (uncached) container. -/
theorem getBucket_forbidden (mgr : Manager) (s : GCSState) (name : String)
    (throw : Bool)
    (h2 : name ∉ s.bucketCache ∨ mgr.cacheBuckets = false)
    (h3 : name ∈ s.forbidden) :
    getBucketM mgr name throw s = (s, .error .forbidden) := by
  by_cases hcb : mgr.cacheBuckets = true
  · have hmem : name ∉ s.bucketCache := by
      rcases h2 with h2 | h2
      · exact h2
      · rw [hcb] at h2; exact Bool.noConfusion h2
    simp [getBucketM, hcb, hmem, h3]
  · have hcb' : mgr.cacheBuckets = false := by
      cases hv : mgr.cacheBuckets
      · rfl
      · exact absurd hv hcb
    simp [getBucketM, hcb', h3]

/-- C6: a backend `Forbidden` while resolving the container during fetch
is never propagated: for every non-root path whose container resolution
hits the backend and is denied, `_fetch` returns `(True, None)` — the
path is reported as existing with a null payload, whatever the content
flag, and the state is untouched. -/
theorem fetch_swallows_forbidden (mgr : Manager) (s : GCSState) (path : String)
    (content : Bool) (h1 : ¬ path = "")
    (h2 : (parsePath path).1 ∉ s.bucketCache ∨ mgr.cacheBuckets = false)
    (h3 : (parsePath path).1 ∈ s.forbidden) :
    fetchM mgr path content s = (s, .ok (.bool true, .nul)) := by
  have hg := getBucket_forbidden mgr s (parsePath path).1 false h2 h3
  simp only [fetchM, bindM_eq, pureM_eq]
  rw [if_neg h1]
  simp only [mBind, mPure, catchE, throwE, getS, hg, if_true]

/-- C6 witness: fetching under the denied bucket `hidden`. -/
theorem fetch_swallows_forbidden_witness :
    fetchM defaultMgr "hidden/x" true c6State = (c6State, .ok (.bool true, .nul)) :=
  fetch_swallows_forbidden defaultMgr c6State "hidden/x" true (by decide)
    (Or.inl (by decide)) (by decide)

/-- C7: a listing never keeps an entry whose resolved path equals the
directory's own path — every blob selected by `_dir_model`'s loop has a
resolved path different from the directory's (for any visibility filter,
directory path and listing) — and concretely, listing `bucket/dir/` over
the objects `bucket/dir/a`, `bucket/dir/b` and the `bucket/dir/` marker
yields exactly the children `bucket/dir/a` and `bucket/dir/b`. -/
theorem dir_listing_excludes_own_entry (mgr : Manager) (path : String)
    (blobs : List Blob) :
    (∀ b ∈ selectBlobs mgr path blobs, getBlobPath b ≠ path)
    ∧ c7childPaths = some ["bucket/dir/a", "bucket/dir/b"] := by
  constructor
  · intro b hb
    simp only [selectBlobs, List.mem_filter, Bool.and_eq_true,
      decide_eq_true_eq] at hb
    exact hb.2.1
  · decide

/-- C7 witness: the selection property at a concrete blob and the
concrete listing. -/
theorem dir_listing_excludes_own_entry_witness :
    getBlobPath c7wBlob ≠ "bucket/other/"
    ∧ c7childPaths = some ["bucket/dir/a", "bucket/dir/b"] :=
  ⟨(dir_listing_excludes_own_entry defaultMgr "bucket/other/" [c7wBlob]).1
      c7wBlob (by decide),
   (dir_listing_excludes_own_entry defaultMgr "" []).2⟩

/-- C8: saving a model whose type is none of notebook/file/directory
raises an `HTTPError` whose message names the unsupported type, but with
the status literal `00` of the source — status `0`, not a 400-class
status as claimed. -/
theorem save_unknown_type_raises_status_zero :
    (saveM defaultMgr c8Model "bucket/f" c8State).2
      = .error (.http 0 "Unhandled contents type: unknown") := by decide

/-- C9: the post-save hook is never invoked.  With any hook configured,
`run_post_save_hook` evaluates the unbound name `path` (its parameter is
`os_path`), raising a `NameError` that the `except` clause logs, so the
call returns normally with one more logged error, no hook invocation
recorded and nothing propagated; concretely, a successful file save with
a configured hook completes with `hookInvocations` empty and one logged
error.  (The isolation half of the claim holds: nothing the hook
machinery raises reaches the caller.) -/
theorem post_save_hook_never_invoked (mgr : Manager) (hk : HookFn)
    (m : ModelOut) (p : String) (s : GCSState)
    (h : mgr.postSaveHook = some hk) :
    runPostSaveHookM mgr m p s
        = ({ s with loggedErrors := s.loggedErrors + 1 }, .ok ())
    ∧ (c9Run.2.isOk = true
        ∧ c9Run.1.hookInvocations = []
        ∧ c9Run.1.loggedErrors = 1) := by
  constructor
  · unfold runPostSaveHookM
    rw [h]
    rfl
  · decide

/-- C9 witness: the hook non-invocation at the concrete configured
manager. -/
theorem post_save_hook_never_invoked_witness :
    runPostSaveHookM c9mgr c9wModel "b/f" c9State
        = ({ c9State with loggedErrors := c9State.loggedErrors + 1 }, .ok ())
    ∧ (c9Run.2.isOk = true
        ∧ c9Run.1.hookInvocations = []
        ∧ c9Run.1.loggedErrors = 1) :=
  post_save_hook_never_invoked c9mgr c9hook c9wModel "b/f" c9State rfl

/-- C10 counterexample: `file_exists` does not return `False` for every
path with an empty object key — when the backend denies access to the
container, the `Forbidden` from the (uncaught) bucket lookup propagates
instead: `file_exists("b")` on a forbidden bucket raises rather than
returning `False`. -/
theorem file_exists_forbidden_counterexample :
    ¬ ((fileExistsM defaultMgr "b" c10ForbiddenState).2 = .ok false)
    ∧ (fileExistsM defaultMgr "b" c10ForbiddenState).2 = .error .forbidden := by
  decide

/-- The bucket lookup without `throw` returns normally whenever the
container is cached or not denied. -/
theorem getBucket_no_forbidden (mgr : Manager) (s : GCSState) (name : String)
    (h : (mgr.cacheBuckets = true ∧ name ∈ s.bucketCache) ∨ name ∉ s.forbidden) :
    ∃ s' b?, getBucketM mgr name false s = (s', .ok b?) := by
  by_cases hcb : mgr.cacheBuckets = true
  · by_cases hmem : name ∈ s.bucketCache
    · exact ⟨s, some name, by simp [getBucketM, hcb, hmem]⟩
    · have hnf : name ∉ s.forbidden := by
        rcases h with ⟨_, hc⟩ | hnf
        · exact absurd hc hmem
        · exact hnf
      by_cases hb : name ∈ s.buckets
      · exact ⟨{ s with bucketCache := name :: s.bucketCache }, some name,
          by simp [getBucketM, hcb, hmem, hnf, hb]⟩
      · exact ⟨s, none, by simp [getBucketM, hcb, hmem, hnf, hb]⟩
  · have hcb' : mgr.cacheBuckets = false := by
      cases hv : mgr.cacheBuckets
      · rfl
      · exact absurd hv hcb
    have hnf : name ∉ s.forbidden := by
      rcases h with ⟨hc, _⟩ | hnf
      · exact absurd hc hcb
      · exact hnf
    by_cases hb : name ∈ s.buckets
    · exact ⟨s, some name, by simp [getBucketM, hcb', hnf, hb]⟩
    · exact ⟨s, none, by simp [getBucketM, hcb', hnf, hb]⟩

/-- C10 (amended): `file_exists` returns `False` for the empty path
unconditionally; and for every path whose container resolution does not
raise (cached, or not backend-denied), it returns `False` whenever the
object key is empty or ends in `/` — even when a marker blob with that
key physically exists, directory-intent paths are never reported as
files. -/
theorem file_exists_false_for_directory_intent (mgr : Manager) (s : GCSState)
    (path : String)
    (h : (mgr.cacheBuckets = true ∧ (parsePath (stripSlash path)).1 ∈ s.bucketCache)
          ∨ (parsePath (stripSlash path)).1 ∉ s.forbidden) :
    fileExistsM mgr "" s = (s, .ok false)
    ∧ ((parsePath (stripSlash path)).2 = "" →
        (fileExistsM mgr path s).2 = .ok false)
    ∧ (strEndsWith (parsePath (stripSlash path)).2 "/" = true →
        (fileExistsM mgr path s).2 = .ok false) := by
  obtain ⟨s', b?, hgb⟩ := getBucket_no_forbidden mgr s (parsePath (stripSlash path)).1 h
  refine ⟨rfl, ?_, ?_⟩
  · intro hkey
    by_cases hp : path = ""
    · rw [hp]; rfl
    · simp only [fileExistsM, bindM_eq, pureM_eq]
      rw [if_neg hp]
      simp only [mBind, mPure, hgb, hkey]
      cases b? <;> simp [mPure]
  · intro hkey
    by_cases hp : path = ""
    · rw [hp]; rfl
    · simp only [fileExistsM, bindM_eq, pureM_eq]
      rw [if_neg hp]
      simp only [mBind, mPure, hgb, hkey]
      cases b? with
      | none => simp [mPure]
      | some bucket =>
        by_cases hk0 : (parsePath (stripSlash path)).2 = ""
        · simp [hk0, mPure]
        · simp [hk0, hkey, mPure]

/-- C10 witness: the amended behavior at the marker-blob scenario. -/
theorem file_exists_false_for_directory_intent_witness :
    fileExistsM defaultMgr "" c10State = (c10State, .ok false)
    ∧ ((parsePath (stripSlash "b/d/")).2 = "" →
        (fileExistsM defaultMgr "b/d/" c10State).2 = .ok false)
    ∧ (strEndsWith (parsePath (stripSlash "b/d/")).2 "/" = true →
        (fileExistsM defaultMgr "b/d/" c10State).2 = .ok false) :=
  file_exists_false_for_directory_intent defaultMgr c10State "b/d/"
    (Or.inr (by decide))

/-- C2: saving a notebook model to `bucket/nb.ipynb` when the path has
zero prior checkpoints (the checkpoint listing is empty) succeeds and
leaves the path with exactly one checkpoint: the subsequent listing
returns a one-element list. -/
theorem notebook_save_ensures_one_checkpoint (bs : List Blob)
    (h : (listCheckpointsM defaultMgr c2path (c2state bs)).2 = .ok []) :
    ∃ s' m, saveM defaultMgr c2model c2path (c2state bs) = (s', .ok m)
      ∧ ∃ c, (listCheckpointsM defaultMgr c2path s').2 = .ok [c] := by
  have hred : (listCheckpointsM defaultMgr c2path (c2state bs)).2
      = Except.ok (sortDesc (List.map c2mkCp
          (((bs.filter c2pm).filter c2pns).take 1024))) := rfl
  have h0 : sortDesc (List.map c2mkCp
      (((bs.filter c2pm).filter c2pns).take 1024)) = [] :=
    Except.ok.inj (hred.symm.trans h)
  have h1 : ((bs.filter c2pm).filter c2pns) = [] := by
    have hm := sortDesc_eq_nil h0
    have ht := List.map_eq_nil_iff.mp hm
    rcases List.take_eq_nil_iff.mp ht with h' | h'
    · exact absurd h' (by decide)
    · exact h'
  have h2 : (((bs.filter c2pnb).filter c2pm).filter c2pns) = [] :=
    filter_filter_sub bs c2pnb c2pm c2pns h1
  have h3 : ((((bs.filter c2pnb).filter c2pncp).filter c2pm).filter c2pns) = [] :=
    filter_filter_sub (bs.filter c2pnb) c2pncp c2pm c2pns h2
  have hcps : sortDesc (List.map c2mkCp
      ((((bs.filter c2pnb).filter c2pm).filter c2pns).take 1024)) = [] := by
    rw [h2]; rfl
  refine ⟨c2st2 bs, c2m, ?_, ?_⟩
  · have hA : saveM defaultMgr c2model c2path (c2state bs)
        = c2afterCps bs (sortDesc (List.map c2mkCp
            ((((bs.filter c2pnb).filter c2pm).filter c2pns).take 1024))) := rfl
    rw [hA, hcps]
    rfl
  · have hB : (listCheckpointsM defaultMgr c2path (c2st2 bs)).2
        = Except.ok (sortDesc (List.map c2mkCp (c2cpBlob ::
            ((((bs.filter c2pnb).filter c2pncp).filter c2pm).filter c2pns).take 1023))) := rfl
    refine ⟨c2mkCp c2cpBlob, ?_⟩
    rw [hB, h3]
    rfl

/-- C2 witness: the guarantee at a store holding one unrelated object. -/
theorem notebook_save_ensures_one_checkpoint_witness :
    ∃ s' m, saveM defaultMgr c2model c2path
        (c2state [{ bucket := "bucket", name := "data.txt", content := [5] }])
        = (s', .ok m)
      ∧ ∃ c, (listCheckpointsM defaultMgr c2path s').2 = .ok [c] :=
  notebook_save_ensures_one_checkpoint
    [{ bucket := "bucket", name := "data.txt", content := [5] }] (by decide)

end JGSCM
